import Mathlib

/-!
Shallow embedding of `preview_server.py` (GO-ACS preview server).

The server is a single `http.server` handler class `GOACSHandler` with three
entry points (`do_GET`, `do_POST`, `do_PUT`) that dispatch on the URL path and
reply either with a static file, an error page, or a literal JSON value sent
through `send_json`.  We embed:

  * JSON values (`Json`), the output of Python's `json.loads` / input of
    `json.dumps`; parsed objects come from a Python `dict`, so their key lists
    are duplicate-free (the parser applies last-wins before we ever see them)
    and `dict.get` is embedded as `List.lookup`;
  * HTTP responses (`Response`): status, headers, body.  The `Content-Length`
    header (a function of the serialized body) is not modelled; the
    `Content-Type` and `Access-Control-Allow-Origin` headers are;
  * the request body of a POST as `Option Json`: the result of
    `json.loads(body)`, `none` when the bytes are not valid JSON (in the code
    this raises and is caught by the bare `except`);
  * Python string operations used by the router (`startswith`, `endswith`,
    `in`, `split`, `isdigit`, `int`, `lower`) over `List Char`; `isdigit`,
    `int` and `lower` are modelled at ASCII granularity.
-/

namespace GOACS

/-- A JSON value, as produced by `json.loads` and consumed by `json.dumps`.
Numbers are embedded as rationals (covering the ints and decimal floats that
occur in the fixtures). -/
inductive Json where
  | null
  | bool (b : Bool)
  | num (q : Rat)
  | str (s : String)
  | arr (elems : List Json)
  | obj (fields : List (String × Json))

/-- True exactly on `Json.arr`. -/
def Json.isArr : Json → Bool
  | Json.arr _ => true
  | _ => false

/-- The body of an HTTP response: a JSON value (sent by `send_json`), raw file
content (sent by `serve_file` and the static-file fallback), or an error page
(sent by `send_error`). -/
inductive Body where
  | json (j : Json)
  | file (content : String)
  | error (msg : String)

/-- An HTTP response: status code, headers, body. -/
structure Response where
  status : Nat
  headers : List (String × String)
  body : Body

/-- HTTP methods handled by `GOACSHandler`. -/
inductive Method where
  | GET
  | POST
  | PUT

/-- An incoming request: method, raw request target (`self.path` in the
handler), and — for POST — the result of `json.loads` on the body bytes
(`none` when they are not valid JSON). -/
structure Request where
  method : Method
  url : String
  body : Option Json

/-- Embeds `s.startswith(p)` on char lists: first argument the string, second
the candidate leading substring. -/
def startsAux : List Char → List Char → Bool
  | _, [] => true
  | [], _ :: _ => false
  | c :: cs, d :: ds => c == d && startsAux cs ds

/-- Python `s.startswith(p)`. -/
def pystartswith (s p : String) : Bool := startsAux s.data p.data

/-- Python `s.endswith(p)`. -/
def pyendswith (s p : String) : Bool := startsAux s.data.reverse p.data.reverse

/-- Helper for Python's substring test `sub in s`. -/
def containsAux (sub : List Char) : List Char → Bool
  | [] => startsAux [] sub
  | c :: cs => startsAux (c :: cs) sub || containsAux sub cs

/-- Python `sub in s` (substring containment). -/
def pycontains (s sub : String) : Bool := containsAux sub.data s.data

/-- Python `s.split(sep)` for a one-character separator, on char lists.
Splitting the empty string yields `[[]]`, matching Python. -/
def splitChar (sep : Char) : List Char → List (List Char)
  | [] => [[]]
  | c :: cs =>
    let rest := splitChar sep cs
    if c == sep then [] :: rest
    else
      match rest with
      | [] => [[c]]
      | r :: rs => (c :: r) :: rs

/-- Embeds `path.split('/')[-1]` from the device-detail route. -/
def pylastSegment (s : String) : String := ⟨(splitChar '/' s.data).getLastD []⟩

/-- Python `s.isdigit()`, at ASCII granularity: nonempty and all decimal
digits. -/
def isdigit (s : String) : Bool := !s.data.isEmpty && s.data.all (fun c => c.isDigit)

/-- Python `int(s)` on a string of decimal digits. -/
def pyint (s : String) : Nat := s.data.foldl (fun n c => 10 * n + (c.toNat - 48)) 0

/-- Python `s.lower()`, at ASCII granularity. -/
def pylower (s : String) : String := ⟨s.data.map (fun c => c.toLower)⟩

/-- Embeds Python `x == "lit"` where `x` is `data.get(k)` (so `none` stands
for Python `None`): true exactly when the value is the string `lit`. -/
def jsonEqStr : Option Json → String → Bool
  | some (Json.str t), s => t == s
  | _, _ => false

/-- Embeds Python `x == "lit"` for a JSON value `x`: true exactly when `x` is
the string `lit`. -/
def jsonIsStr : Json → String → Bool
  | Json.str t, s => t == s
  | _, _ => false

/-- JSON values that are unhashable in Python (`list` / `dict`): using one as
the needle of a `dict` membership test raises `TypeError`. -/
def pyUnhashable : Json → Bool
  | Json.arr _ => true
  | Json.obj _ => true
  | _ => false

/-- `GOACSHandler.send_json`: serialize `data`, send `status` (200 at every
call site that omits it) plus the `Content-Type` and permissive CORS headers.
(The `Content-Length` header, a function of the serialized body, is not
modelled.) -/
def send_json (data : Json) (status : Nat) : Response :=
  { status := status
  , headers := [("Content-Type", "application/json"), ("Access-Control-Allow-Origin", "*")]
  , body := Body.json data }

/-- `BaseHTTPRequestHandler.send_error`: an error page with the given status. -/
def send_error (status : Nat) (msg : String) : Response :=
  { status := status, headers := [], body := Body.error msg }

/-- The `Content-Type` chosen by `serve_file` from the file extension. -/
def contentTypeFor (filepath : String) : String :=
  if pyendswith filepath ".html" = true then "text/html; charset=utf-8"
  else if pyendswith filepath ".css" = true then "text/css"
  else if pyendswith filepath ".js" = true then "application/javascript"
  else "application/octet-stream"

/-- `GOACSHandler.serve_file`, over a filesystem `fs` mapping paths to file
contents: 200 with the file bytes, or `send_error 404` when `open` raises
`FileNotFoundError`. -/
def serve_file (fs : String → Option String) (filepath : String) : Response :=
  match fs filepath with
  | some content =>
      { status := 200
      , headers := [("Content-Type", contentTypeFor filepath)]
      , body := Body.file content }
  | none => send_error 404 ("File not found: " ++ filepath)

/-- Modelled from the spec: `SimpleHTTPRequestHandler.do_GET` (the
`super().do_GET()` fallback, stdlib code not in this repository) — "GET of an
unknown path falls through to default static-file handling and returns 404 if
absent". -/
def fallback_GET (fs : String → Option String) (path : String) : Response :=
  match fs path with
  | some content =>
      { status := 200
      , headers := [("Content-Type", contentTypeFor path)]
      , body := Body.file content }
  | none => send_error 404 ""

/-- The `/api/dashboard/stats` fixture. -/
def dashboardStatsJson : Json :=
  Json.obj
    [ ("totalDevices", Json.num 5), ("onlineDevices", Json.num 3)
    , ("offlineDevices", Json.num 2), ("pendingTasks", Json.num 1)
    , ("devicesByModel", Json.obj
        [("HG8245H", Json.num 2), ("F660", Json.num 2), ("AN5506", Json.num 1)]) ]

/-- The five literal device records of the `/api/devices` fixture. -/
def deviceRecords : List Json :=
  [ Json.obj
      [ ("id", Json.num 1), ("serialNumber", Json.str "HWTC12345678")
      , ("manufacturer", Json.str "Huawei"), ("modelName", Json.str "HG8245H")
      , ("status", Json.str "online"), ("ipAddress", Json.str "192.168.1.1")
      , ("lastContact", Json.str "2026-01-04T22:50:00Z")
      , ("latitude", Json.num (-6.2088)), ("longitude", Json.num 106.8456)
      , ("address", Json.str "Jl. Sudirman No. 1, Jakarta") ]
  , Json.obj
      [ ("id", Json.num 2), ("serialNumber", Json.str "ZTEGC87654321")
      , ("manufacturer", Json.str "ZTE"), ("modelName", Json.str "F660")
      , ("status", Json.str "online"), ("ipAddress", Json.str "192.168.1.2")
      , ("lastContact", Json.str "2026-01-04T22:45:00Z")
      , ("latitude", Json.num (-6.1751)), ("longitude", Json.num 106.8650)
      , ("address", Json.str "Jl. Thamrin No. 10, Jakarta") ]
  , Json.obj
      [ ("id", Json.num 3), ("serialNumber", Json.str "FHTT11223344")
      , ("manufacturer", Json.str "FiberHome"), ("modelName", Json.str "AN5506-04-F")
      , ("status", Json.str "offline"), ("ipAddress", Json.str "192.168.1.3")
      , ("lastContact", Json.str "2026-01-04T20:00:00Z")
      , ("latitude", Json.num (-6.2297)), ("longitude", Json.num 106.8295)
      , ("address", Json.str "Jl. Gatot Subroto No. 5, Jakarta") ]
  , Json.obj
      [ ("id", Json.num 4), ("serialNumber", Json.str "HWTC99887766")
      , ("manufacturer", Json.str "Huawei"), ("modelName", Json.str "HG8245H5")
      , ("status", Json.str "online"), ("ipAddress", Json.str "192.168.1.4")
      , ("lastContact", Json.str "2026-01-04T22:52:00Z")
      , ("latitude", Json.num (-6.1862)), ("longitude", Json.num 106.8225)
      , ("address", Json.str "Jl. Kebon Sirih No. 15, Jakarta") ]
  , Json.obj
      [ ("id", Json.num 5), ("serialNumber", Json.str "ZTEGC55443322")
      , ("manufacturer", Json.str "ZTE"), ("modelName", Json.str "F670L")
      , ("status", Json.str "offline"), ("ipAddress", Json.str "192.168.1.5")
      , ("lastContact", Json.str "2026-01-04T18:00:00Z")
      , ("latitude", Json.num (-6.2615)), ("longitude", Json.num 106.8106)
      , ("address", Json.str "Jl. TB Simatupang No. 22, Jakarta") ] ]

/-- The `/api/devices` fixture: an object wrapping the device array. -/
def devicesJson : Json :=
  Json.obj [("devices", Json.arr deviceRecords), ("total", Json.num 5)]

/-- The `/api/devices/<id>/wifi` fixture. -/
def wifiJson : Json :=
  Json.obj
    [ ("ssid", Json.str "MyWiFi_Network"), ("password", Json.str "password123")
    , ("ssid5g", Json.str "MyWiFi_5G"), ("password5g", Json.str "password123")
    , ("channel", Json.num 6), ("enabled", Json.bool true) ]

/-- The `/api/devices/<id>/wan` fixture. -/
def wanJson : Json :=
  Json.arr
    [ Json.obj
        [ ("id", Json.num 1), ("name", Json.str "wan1_pppoe")
        , ("connectionType", Json.str "PPPoE"), ("status", Json.str "Connected")
        , ("vlan", Json.num 100) ]
    , Json.obj
        [ ("id", Json.num 2), ("name", Json.str "wan2_bridge")
        , ("connectionType", Json.str "Bridge"), ("status", Json.str "Connected")
        , ("vlan", Json.num 200) ] ]

/-- The `/api/devices/<id>/parameters` fixture. -/
def parametersJson : Json :=
  Json.arr
    [ Json.obj
        [ ("path", Json.str "InternetGatewayDevice.DeviceInfo.UpTime")
        , ("value", Json.str "86400") ]
    , Json.obj
        [ ("path", Json.str "InternetGatewayDevice.DeviceInfo.SoftwareVersion")
        , ("value", Json.str "V3R019C10S120") ]
    , Json.obj
        [ ("path", Json.str "InternetGatewayDevice.LANDevice.1.WLANConfiguration.1.SSID")
        , ("value", Json.str "MyWiFi_Network") ] ]

/-- The `/api/devices/<id>/pon` fixture. -/
def ponJson : Json :=
  Json.obj
    [ ("rxPower", Json.num (-18.5)), ("txPower", Json.num 2.3)
    , ("onuId", Json.num 1), ("distance", Json.num 2.5)
    , ("temperature", Json.num 45), ("voltage", Json.num 3.3)
    , ("biasCurrent", Json.num 15) ]

/-- The `/api/devices/<id>/clients` fixture. -/
def clientsJson : Json :=
  Json.obj
    [ ("clients", Json.arr
        [ Json.obj
            [ ("name", Json.str "iPhone 15 Pro"), ("mac", Json.str "A4:B2:C1:D3:E5:F7")
            , ("ip", Json.str "192.168.1.101"), ("type", Json.str "phone")
            , ("rssi", Json.num (-45)) ]
        , Json.obj
            [ ("name", Json.str "MacBook Pro"), ("mac", Json.str "B8:C3:D2:E4:F6:A1")
            , ("ip", Json.str "192.168.1.102"), ("type", Json.str "laptop")
            , ("rssi", Json.num (-52)) ]
        , Json.obj
            [ ("name", Json.str "Samsung Galaxy Tab"), ("mac", Json.str "C6:D4:E3:F5:A2:B8")
            , ("ip", Json.str "192.168.1.103"), ("type", Json.str "tablet")
            , ("rssi", Json.num (-61)) ]
        , Json.obj
            [ ("name", Json.str "Smart TV"), ("mac", Json.str "D7:E5:F4:A6:B3:C9")
            , ("ip", Json.str "192.168.1.104"), ("type", Json.str "tv")
            , ("rssi", Json.num (-38)) ]
        , Json.obj
            [ ("name", Json.str "Unknown Device"), ("mac", Json.str "E8:F6:A5:B7:C4:D2")
            , ("ip", Json.str "192.168.1.105"), ("type", Json.str "other")
            , ("rssi", Json.num (-72)) ] ]) ]

/-- The device-detail fixture returned for `/api/devices/<id>`: fixed except
for the `id` field, computed from the last path segment. -/
def deviceDetailJson (idv : Nat) : Json :=
  Json.obj
    [ ("id", Json.num (idv : Rat)), ("serialNumber", Json.str "HWTC12345678")
    , ("manufacturer", Json.str "Huawei"), ("modelName", Json.str "HG8245H")
    , ("hardwareVersion", Json.str "V300R019"), ("softwareVersion", Json.str "V3R019C10S120")
    , ("status", Json.str "online"), ("ipAddress", Json.str "192.168.1.1")
    , ("lastContact", Json.str "2026-01-04T22:50:00Z") ]

/-- The `/api/packages` fixture. -/
def packagesJson : Json :=
  Json.arr
    [ Json.obj
        [ ("id", Json.num 1), ("name", Json.str "Home Basic")
        , ("description", Json.str "Basic internet"), ("downloadSpeed", Json.num 10)
        , ("uploadSpeed", Json.num 3), ("price", Json.num 150000)
        , ("isActive", Json.bool true) ]
    , Json.obj
        [ ("id", Json.num 2), ("name", Json.str "Home Standard")
        , ("description", Json.str "Standard internet"), ("downloadSpeed", Json.num 20)
        , ("uploadSpeed", Json.num 5), ("price", Json.num 250000)
        , ("isActive", Json.bool true) ]
    , Json.obj
        [ ("id", Json.num 3), ("name", Json.str "Home Premium")
        , ("description", Json.str "Premium internet"), ("downloadSpeed", Json.num 50)
        , ("uploadSpeed", Json.num 10), ("price", Json.num 400000)
        , ("isActive", Json.bool true) ]
    , Json.obj
        [ ("id", Json.num 4), ("name", Json.str "Business")
        , ("description", Json.str "Business internet"), ("downloadSpeed", Json.num 100)
        , ("uploadSpeed", Json.num 20), ("price", Json.num 750000)
        , ("isActive", Json.bool true) ] ]

/-- The `/api/customers` fixture. -/
def customersJson : Json :=
  Json.obj
    [ ("customers", Json.arr
        [ Json.obj
            [ ("id", Json.num 1), ("customerCode", Json.str "CUST-0001")
            , ("name", Json.str "John Doe"), ("email", Json.str "john@email.com")
            , ("phone", Json.str "08123456789"), ("status", Json.str "active")
            , ("packageId", Json.num 2), ("balance", Json.num 0) ]
        , Json.obj
            [ ("id", Json.num 2), ("customerCode", Json.str "CUST-0002")
            , ("name", Json.str "Ahmad Susanto"), ("email", Json.str "ahmad@email.com")
            , ("phone", Json.str "08234567890"), ("status", Json.str "active")
            , ("packageId", Json.num 3), ("balance", Json.num (-250000)) ]
        , Json.obj
            [ ("id", Json.num 3), ("customerCode", Json.str "CUST-0003")
            , ("name", Json.str "Budi Wijaya"), ("email", Json.str "budi@email.com")
            , ("phone", Json.str "08345678901"), ("status", Json.str "suspended")
            , ("packageId", Json.num 1), ("balance", Json.num (-500000)) ] ])
    , ("total", Json.num 3) ]

/-- The `/api/invoices` fixture. -/
def invoicesJson : Json :=
  Json.obj
    [ ("invoices", Json.arr
        [ Json.obj
            [ ("id", Json.num 1), ("invoiceNo", Json.str "INV-202601-0001")
            , ("customerId", Json.num 1), ("total", Json.num 250000)
            , ("status", Json.str "paid"), ("paidAmount", Json.num 250000)
            , ("dueDate", Json.str "2026-01-15") ]
        , Json.obj
            [ ("id", Json.num 2), ("invoiceNo", Json.str "INV-202601-0002")
            , ("customerId", Json.num 2), ("total", Json.num 400000)
            , ("status", Json.str "pending"), ("paidAmount", Json.num 0)
            , ("dueDate", Json.str "2026-01-15") ]
        , Json.obj
            [ ("id", Json.num 3), ("invoiceNo", Json.str "INV-202601-0003")
            , ("customerId", Json.num 3), ("total", Json.num 150000)
            , ("status", Json.str "overdue"), ("paidAmount", Json.num 0)
            , ("dueDate", Json.str "2026-01-01") ] ])
    , ("total", Json.num 3) ]

/-- The `/api/payments` fixture. -/
def paymentsJson : Json :=
  Json.obj
    [ ("payments", Json.arr
        [ Json.obj
            [ ("id", Json.num 1), ("paymentNo", Json.str "PAY-202601-0001")
            , ("customerId", Json.num 1), ("amount", Json.num 250000)
            , ("paymentMethod", Json.str "transfer"), ("status", Json.str "completed")
            , ("paymentDate", Json.str "2026-01-03") ]
        , Json.obj
            [ ("id", Json.num 2), ("paymentNo", Json.str "PAY-202512-0015")
            , ("customerId", Json.num 2), ("amount", Json.num 400000)
            , ("paymentMethod", Json.str "cash"), ("status", Json.str "completed")
            , ("paymentDate", Json.str "2026-01-02") ] ])
    , ("total", Json.num 2) ]

/-- The `/api/billing/stats` fixture. -/
def billingStatsJson : Json :=
  Json.obj
    [ ("totalCustomers", Json.num 142), ("activeCustomers", Json.num 134)
    , ("suspendedCustomers", Json.num 8), ("monthlyRevenue", Json.num 35500000)
    , ("pendingInvoices", Json.num 23), ("overdueAmount", Json.num 2500000)
    , ("todayPayments", Json.num 1750000) ]

/-- Successful admin login response body (`/api/auth/login`). -/
def adminOkJson : Json :=
  Json.obj
    [ ("success", Json.bool true), ("token", Json.str "mock-jwt-token-12345")
    , ("user", Json.obj [("username", Json.str "admin"), ("role", Json.str "admin")]) ]

/-- Failed-credentials response body for `/api/auth/login`. -/
def authFailJson : Json :=
  Json.obj [("success", Json.bool false), ("error", Json.str "Invalid credentials")]

/-- Response body for the bare `except` branches of both login handlers. -/
def invalidRequestJson : Json :=
  Json.obj [("success", Json.bool false), ("error", Json.str "Invalid request")]

/-- Failed-credentials response body for `/api/portal/auth/login`. -/
def portalFailJson : Json :=
  Json.obj [("success", Json.bool false), ("error", Json.str "Invalid username or password")]

/-- An entry of the hardcoded `valid_users` dict of the portal login handler. -/
structure PortalUser where
  id : Nat
  code : String
  name : String
  password : String

/-- The hardcoded `valid_users` dict of `/api/portal/auth/login`. -/
def valid_users : List (String × PortalUser) :=
  [ ("johndoe", ⟨1, "CUST-0001", "John Doe", "password123"⟩)
  , ("CUST-0001", ⟨1, "CUST-0001", "John Doe", "password123"⟩)
  , ("ahmad", ⟨2, "CUST-0002", "Ahmad Susanto", "password123"⟩)
  , ("CUST-0002", ⟨2, "CUST-0002", "Ahmad Susanto", "password123"⟩) ]

/-- Successful portal login response body, built from the matched user record
and the username as typed (its lowercase form feeds the mock email). -/
def portalOkJson (username : String) (user : PortalUser) : Json :=
  Json.obj
    [ ("success", Json.bool true)
    , ("token", Json.str ("customer-" ++ toString user.id ++ "-mock-token"))
    , ("customer", Json.obj
        [ ("id", Json.num (user.id : Rat)), ("customerCode", Json.str user.code)
        , ("name", Json.str user.name)
        , ("email", Json.str (pylower username ++ "@email.com"))
        , ("status", Json.str "active") ]) ]

/-- Response body of the logout routes. -/
def logoutJson : Json := Json.obj [("success", Json.bool true)]

/-- Response body of the reboot/refresh routes. -/
def commandQueuedJson : Json :=
  Json.obj [("success", Json.bool true), ("message", Json.str "Command queued")]

/-- Response body of POST `/api/devices`. -/
def postDevicesJson : Json :=
  Json.obj [("success", Json.bool true), ("id", Json.num 6)]

/-- Response body of the POST catch-all. -/
def genericOkJson : Json := Json.obj [("success", Json.bool true)]

/-- Response body of `do_PUT`. -/
def putOkJson : Json :=
  Json.obj [("success", Json.bool true), ("message", Json.str "Updated")]

/-- `GOACSHandler.do_GET`, over the parsed path (`urlparse(self.path).path`)
and a filesystem `fs`: the elif chain of the source, in order. -/
def do_GET (fs : String → Option String) (path : String) : Response :=
  if path = "/" ∨ path = "/index.html" then serve_file fs "web/templates/index.html"
  else if path = "/dashboard" then serve_file fs "web/templates/dashboard.html"
  else if path = "/devices" then serve_file fs "web/templates/devices.html"
  else if pystartswith path "/device/" = true then serve_file fs "web/templates/device-detail.html"
  else if path = "/provisions" then serve_file fs "web/templates/provisions.html"
  else if path = "/map" then serve_file fs "web/templates/map.html"
  else if path = "/customers" then serve_file fs "web/templates/customers.html"
  else if path = "/billing" then serve_file fs "web/templates/billing.html"
  else if path = "/portal" ∨ path = "/portal/" then serve_file fs "web/templates/portal.html"
  else if path = "/portal/login" then serve_file fs "web/templates/portal-login.html"
  else if path = "/packages" then serve_file fs "web/templates/packages.html"
  else if path = "/tasks" then serve_file fs "web/templates/tasks.html"
  else if path = "/logs" then serve_file fs "web/templates/logs.html"
  else if path = "/settings" then serve_file fs "web/templates/settings.html"
  else if pystartswith path "/static/" = true then
    (if (fs ("web" ++ path)).isSome = true then serve_file fs ("web" ++ path)
     else send_error 404 "")
  else if path = "/api/dashboard/stats" then send_json dashboardStatsJson 200
  else if path = "/api/devices" then send_json devicesJson 200
  else if pystartswith path "/api/devices/" = true ∧ pyendswith path "/wifi" = true then
    send_json wifiJson 200
  else if pystartswith path "/api/devices/" = true ∧ pyendswith path "/wan" = true then
    send_json wanJson 200
  else if pystartswith path "/api/devices/" = true ∧ pyendswith path "/parameters" = true then
    send_json parametersJson 200
  else if pystartswith path "/api/devices/" = true ∧ pyendswith path "/pon" = true then
    send_json ponJson 200
  else if pystartswith path "/api/devices/" = true ∧ pyendswith path "/clients" = true then
    send_json clientsJson 200
  else if pystartswith path "/api/devices/" = true then
    send_json
      (deviceDetailJson
        (if isdigit (pylastSegment path) = true then pyint (pylastSegment path) else 1)) 200
  else if path = "/api/packages" then send_json packagesJson 200
  else if path = "/api/customers" then send_json customersJson 200
  else if path = "/api/invoices" then send_json invoicesJson 200
  else if path = "/api/payments" then send_json paymentsJson 200
  else if path = "/api/billing/stats" then send_json billingStatsJson 200
  else fallback_GET fs path

/-- `GOACSHandler.do_POST`, over the parsed path and the result of
`json.loads` on the body bytes (`none` when they are not valid JSON).  In the
login branches, a parse failure, a parsed body that is not an object (so that
`data.get` raises `AttributeError`), or — on the portal route — an unhashable
username value (so that `username in valid_users` raises `TypeError`) all land
in the bare `except`, answering 400. -/
def do_POST (path : String) (body : Option Json) : Response :=
  if path = "/api/auth/login" then
    match body with
    | some (Json.obj fields) =>
        if jsonEqStr (List.lookup "username" fields) "admin" = true ∧
            jsonEqStr (List.lookup "password" fields) "admin123" = true then
          send_json adminOkJson 200
        else
          send_json authFailJson 401
    | _ => send_json invalidRequestJson 400
  else if path = "/api/portal/auth/login" then
    match body with
    | some (Json.obj fields) =>
        if pyUnhashable ((List.lookup "username" fields).getD (Json.str "")) = true then
          send_json invalidRequestJson 400
        else
          match (List.lookup "username" fields).getD (Json.str "") with
          | Json.str u =>
            (match List.lookup u valid_users with
             | some user =>
                 if jsonIsStr ((List.lookup "password" fields).getD (Json.str ""))
                     user.password = true then
                   send_json (portalOkJson u user) 200
                 else send_json portalFailJson 401
             | none => send_json portalFailJson 401)
          | _ => send_json portalFailJson 401
    | _ => send_json invalidRequestJson 400
  else if path = "/api/auth/logout" ∨ path = "/api/portal/auth/logout" then
    send_json logoutJson 200
  else if pycontains path "/reboot" = true ∨ pycontains path "/refresh" = true then
    send_json commandQueuedJson 200
  else if path = "/api/devices" then send_json postDevicesJson 200
  else send_json genericOkJson 200

/-- `GOACSHandler.do_PUT`: a fixed success body, ignoring path and body. -/
def do_PUT : Response := send_json putOkJson 200

/-- `urlparse(url).path` as used by both handlers: the request target up to
the first query or fragment delimiter. -/
def urlparse_path (url : String) : String :=
  ⟨url.data.takeWhile (fun c => !(c == '?' || c == '#'))⟩

/-- One request-response round trip of `GOACSHandler`. -/
def handle (fs : String → Option String) (req : Request) : Response :=
  match req.method with
  | Method.GET => do_GET fs (urlparse_path req.url)
  | Method.POST => do_POST (urlparse_path req.url) req.body
  | Method.PUT => do_PUT

/-- The empty filesystem, used to instantiate theorems at concrete inputs. -/
def fsEmpty : String → Option String := fun _ => none

/-- Characterizes the two named login routes, used to state which paths can
answer 400 or 401. -/
def isLoginPath (path : String) : Prop :=
  path = "/api/auth/login" ∨ path = "/api/portal/auth/login"

/-- Projects the `success` field out of a JSON response body, `false`
elsewhere; a decidable separator between response bodies. -/
def successFlag (b : Body) : Bool :=
  match b with
  | Body.json (Json.obj fields) =>
      (match List.lookup "success" fields with
       | some (Json.bool v) => v
       | _ => false)
  | _ => false

/-- Statuses a GET response can carry: 200 or 404. -/
def statusOKGET (r : Response) : Prop := r.status = 200 ∨ r.status = 404

/-- Statuses a POST response can carry: 200 everywhere, 400/401 only on the
login routes. -/
def statusOKPOST (p : String) (r : Response) : Prop :=
  r.status = 200 ∨ ((r.status = 400 ∨ r.status = 401) ∧ isLoginPath p)

/-- A response whose body is JSON carries exactly the two `send_json`
headers. -/
def jsonHeadersOK (r : Response) : Prop :=
  ∀ j : Json, r.body = Body.json j →
    r.headers = [("Content-Type", "application/json"), ("Access-Control-Allow-Origin", "*")]

theorem strData_append (s t : String) : (s ++ t).data = s.data ++ t.data := rfl

theorem strEq_of_data {s t : String} (h : s.data = t.data) : s = t :=
  congrArg String.mk h

/-- `neverEq pre lit = true` certifies that no extension of `pre` equals
`lit`: either they disagree within their common length, or `pre` is strictly
longer. -/
def neverEq : List Char → List Char → Bool
  | [], _ => false
  | _ :: _, [] => true
  | a :: as, b :: bs => !(a == b) || neverEq as bs

theorem neverEq_spec : ∀ (a b : List Char), neverEq a b = true → ∀ l, a ++ l ≠ b := by
  intro a
  induction a with
  | nil => intro b h; simp [neverEq] at h
  | cons x as ih =>
    intro b h l
    cases b with
    | nil => simp
    | cons y bs =>
      intro he
      rw [List.cons_append] at he
      have hx : x = y := (List.cons.injEq ..).mp he |>.1
      have ht : as ++ l = bs := (List.cons.injEq ..).mp he |>.2
      simp [neverEq, hx] at h
      exact ih bs h l ht

/-- `neverStarts pre p = true` certifies that no extension of `pre` starts
with `p`: they disagree within `pre`'s length. -/
def neverStarts : List Char → List Char → Bool
  | _, [] => false
  | [], _ :: _ => false
  | a :: as, p :: ps => !(a == p) || neverStarts as ps

theorem neverStarts_spec :
    ∀ (a p : List Char), neverStarts a p = true → ∀ l, startsAux (a ++ l) p = false := by
  intro a
  induction a with
  | nil => intro p h; cases p <;> simp [neverStarts] at h
  | cons x as ih =>
    intro p h l
    cases p with
    | nil => simp [neverStarts] at h
    | cons y ps =>
      rw [List.cons_append]
      show (x == y && startsAux (as ++ l) ps) = false
      cases hxy : (x == y) with
      | false => simp [hxy]
      | true =>
        have h2 : neverStarts as ps = true := by
          have h3 := h
          simp [neverStarts, hxy] at h3
          exact h3
        simp [hxy, ih ps h2 l]

theorem startsAux_append : ∀ (p l : List Char), startsAux (p ++ l) p = true := by
  intro p
  induction p with
  | nil => intro l; cases l <;> rfl
  | cons c cs ih => intro l; simp [startsAux, ih]

/-- No path of the form `"/api/devices/" ++ seg` equals the given literal
(certified by `neverEq` on the char lists). -/
theorem ne_lit (seg lit : String)
    (h : neverEq ("/api/devices/").data lit.data = true) :
    ¬ ("/api/devices/" ++ seg = lit) := by
  intro he
  have hd := congrArg String.data he
  rw [strData_append] at hd
  exact neverEq_spec _ _ h _ hd

/-- No path of the form `"/api/devices/" ++ seg` starts with the given
literal (certified by `neverStarts` on the char lists). -/
theorem ns_lit (seg pre : String)
    (h : neverStarts ("/api/devices/").data pre.data = true) :
    pystartswith ("/api/devices/" ++ seg) pre = false := by
  unfold pystartswith
  rw [strData_append]
  exact neverStarts_spec _ _ h _

theorem sw_self (pre rest : String) : pystartswith (pre ++ rest) pre = true := by
  unfold pystartswith
  rw [strData_append]
  exact startsAux_append _ _

theorem ew_suffix (s suf : String) : pyendswith (s ++ suf) suf = true := by
  unfold pyendswith
  rw [strData_append, List.reverse_append]
  exact startsAux_append _ _

theorem strAppend_assoc (a b c : String) : a ++ b ++ c = a ++ (b ++ c) := by
  apply strEq_of_data
  rw [strData_append, strData_append, strData_append, strData_append, List.append_assoc]

theorem jsonEqStr_iff (o : Option Json) (s : String) :
    jsonEqStr o s = true ↔ o = some (Json.str s) := by
  cases o with
  | none => simp [jsonEqStr]
  | some j => cases j <;> simp [jsonEqStr]

theorem jsonIsStr_iff (v : Json) (s : String) :
    jsonIsStr v s = true ↔ v = Json.str s := by
  cases v <;> simp [jsonIsStr]

theorem valid_users_lookup (u : String) (usr : PortalUser)
    (hl : List.lookup u valid_users = some usr) :
    (u = "johndoe" ∨ u = "CUST-0001" ∨ u = "ahmad" ∨ u = "CUST-0002") ∧
      usr.password = "password123" := by
  unfold valid_users at hl
  simp only [List.lookup] at hl
  split at hl
  case _ h =>
    injection hl with h2
    subst h2
    exact ⟨Or.inl (by simpa using h), rfl⟩
  case _ =>
    split at hl
    case _ h =>
      injection hl with h2
      subst h2
      exact ⟨Or.inr (Or.inl (by simpa using h)), rfl⟩
    case _ =>
      split at hl
      case _ h =>
        injection hl with h2
        subst h2
        exact ⟨Or.inr (Or.inr (Or.inl (by simpa using h))), rfl⟩
      case _ =>
        split at hl
        case _ h =>
          injection hl with h2
          subst h2
          exact ⟨Or.inr (Or.inr (Or.inr (by simpa using h))), rfl⟩
        case _ => exact Option.noConfusion hl

/-- Unfolding of `do_POST` on `/api/auth/login` with a parsed object body. -/
theorem do_POST_auth_obj (fields : List (String × Json)) :
    do_POST "/api/auth/login" (some (Json.obj fields)) =
      (if jsonEqStr (List.lookup "username" fields) "admin" = true ∧
           jsonEqStr (List.lookup "password" fields) "admin123" = true then
         send_json adminOkJson 200
       else send_json authFailJson 401) := rfl

/-- Unfolding of `do_POST` on `/api/portal/auth/login` with a parsed object
body. -/
theorem do_POST_portal_obj (fields : List (String × Json)) :
    do_POST "/api/portal/auth/login" (some (Json.obj fields)) =
      (if pyUnhashable ((List.lookup "username" fields).getD (Json.str "")) = true then
         send_json invalidRequestJson 400
       else
         match (List.lookup "username" fields).getD (Json.str "") with
         | Json.str u =>
           (match List.lookup u valid_users with
            | some user =>
                if jsonIsStr ((List.lookup "password" fields).getD (Json.str ""))
                    user.password = true then
                  send_json (portalOkJson u user) 200
                else send_json portalFailJson 401
            | none => send_json portalFailJson 401)
         | _ => send_json portalFailJson 401) := rfl

/-- Routing of every path of the form `/api/devices/<seg>`: none of the
earlier branches of the `do_GET` elif chain can match, so the request lands in
the device sub-resource branches, discriminated by path suffix only. -/
theorem do_GET_api_devices (fs : String → Option String) (seg : String) :
    do_GET fs ("/api/devices/" ++ seg) =
      (if pyendswith ("/api/devices/" ++ seg) "/wifi" = true then send_json wifiJson 200
       else if pyendswith ("/api/devices/" ++ seg) "/wan" = true then send_json wanJson 200
       else if pyendswith ("/api/devices/" ++ seg) "/parameters" = true then
         send_json parametersJson 200
       else if pyendswith ("/api/devices/" ++ seg) "/pon" = true then send_json ponJson 200
       else if pyendswith ("/api/devices/" ++ seg) "/clients" = true then send_json clientsJson 200
       else
         send_json
           (deviceDetailJson
             (if isdigit (pylastSegment ("/api/devices/" ++ seg)) = true then
                pyint (pylastSegment ("/api/devices/" ++ seg))
              else 1)) 200) := by
  have hsw : pystartswith ("/api/devices/" ++ seg) "/api/devices/" = true := sw_self _ _
  have hdev : pystartswith ("/api/devices/" ++ seg) "/device/" = false :=
    ns_lit seg "/device/" (by decide)
  have hstat : pystartswith ("/api/devices/" ++ seg) "/static/" = false :=
    ns_lit seg "/static/" (by decide)
  unfold do_GET
  rw [ if_neg (fun h => h.elim (ne_lit seg "/" (by decide)) (ne_lit seg "/index.html" (by decide)))
     , if_neg (ne_lit seg "/dashboard" (by decide))
     , if_neg (ne_lit seg "/devices" (by decide))
     , if_neg (show ¬ (pystartswith ("/api/devices/" ++ seg) "/device/" = true) by simp [hdev])
     , if_neg (ne_lit seg "/provisions" (by decide))
     , if_neg (ne_lit seg "/map" (by decide))
     , if_neg (ne_lit seg "/customers" (by decide))
     , if_neg (ne_lit seg "/billing" (by decide))
     , if_neg (fun h => h.elim (ne_lit seg "/portal" (by decide)) (ne_lit seg "/portal/" (by decide)))
     , if_neg (ne_lit seg "/portal/login" (by decide))
     , if_neg (ne_lit seg "/packages" (by decide))
     , if_neg (ne_lit seg "/tasks" (by decide))
     , if_neg (ne_lit seg "/logs" (by decide))
     , if_neg (ne_lit seg "/settings" (by decide))
     , if_neg (show ¬ (pystartswith ("/api/devices/" ++ seg) "/static/" = true) by simp [hstat])
     , if_neg (ne_lit seg "/api/dashboard/stats" (by decide))
     , if_neg (ne_lit seg "/api/devices" (by decide)) ]
  simp only [hsw, eq_self_iff_true, true_and, if_true]

/-- Case-splitting lemma for `ite` under an arbitrary predicate; drives the
traversal of the routing towers without `split`. -/
theorem ite_pred {α : Sort 1} (P : α → Prop) (c : Prop) [Decidable c] (a b : α)
    (ha : P a) (hb : P b) : P (if c then a else b) := by
  by_cases h : c
  · rwa [if_pos h]
  · rwa [if_neg h]

theorem serve_file_statusOK (fs : String → Option String) (fp : String) :
    statusOKGET (serve_file fs fp) := by
  unfold serve_file
  rcases hf : fs fp with _ | c
  · exact Or.inr rfl
  · exact Or.inl rfl

theorem fallback_GET_statusOK (fs : String → Option String) (p : String) :
    statusOKGET (fallback_GET fs p) := by
  unfold fallback_GET
  rcases hf : fs p with _ | c
  · exact Or.inr rfl
  · exact Or.inl rfl

/-- Every GET response carries status 200 or 404. -/
theorem do_GET_status (fs : String → Option String) (p : String) :
    statusOKGET (do_GET fs p) := by
  unfold do_GET
  repeat' first
    | exact serve_file_statusOK fs _
    | exact fallback_GET_statusOK fs _
    | exact Or.inl rfl
    | exact Or.inr rfl
    | apply ite_pred

/-- Every POST response carries status 200, or 400/401 on a login route. -/
theorem do_POST_status (p : String) (b : Option Json) :
    statusOKPOST p (do_POST p b) := by
  unfold do_POST
  by_cases h1 : p = "/api/auth/login"
  · rw [if_pos h1]
    rcases b with _ | j
    · exact Or.inr ⟨Or.inl rfl, Or.inl h1⟩
    · cases j with
      | obj fields =>
        apply ite_pred
        · exact Or.inl rfl
        · exact Or.inr ⟨Or.inr rfl, Or.inl h1⟩
      | null => exact Or.inr ⟨Or.inl rfl, Or.inl h1⟩
      | bool v => exact Or.inr ⟨Or.inl rfl, Or.inl h1⟩
      | num q => exact Or.inr ⟨Or.inl rfl, Or.inl h1⟩
      | str s => exact Or.inr ⟨Or.inl rfl, Or.inl h1⟩
      | arr l => exact Or.inr ⟨Or.inl rfl, Or.inl h1⟩
  · rw [if_neg h1]
    by_cases h2 : p = "/api/portal/auth/login"
    · rw [if_pos h2]
      rcases b with _ | j
      · exact Or.inr ⟨Or.inl rfl, Or.inr h2⟩
      · cases j with
        | obj fields =>
          apply ite_pred
          · exact Or.inr ⟨Or.inl rfl, Or.inr h2⟩
          · cases hv : (List.lookup "username" fields).getD (Json.str "") with
            | str u =>
              show statusOKPOST p
                (match List.lookup u valid_users with
                 | some user =>
                     if jsonIsStr ((List.lookup "password" fields).getD (Json.str ""))
                         user.password = true then
                       send_json (portalOkJson u user) 200
                     else send_json portalFailJson 401
                 | none => send_json portalFailJson 401)
              rcases hl : List.lookup u valid_users with _ | usr
              · exact Or.inr ⟨Or.inr rfl, Or.inr h2⟩
              · apply ite_pred
                · exact Or.inl rfl
                · exact Or.inr ⟨Or.inr rfl, Or.inr h2⟩
            | null => exact Or.inr ⟨Or.inr rfl, Or.inr h2⟩
            | bool v => exact Or.inr ⟨Or.inr rfl, Or.inr h2⟩
            | num q => exact Or.inr ⟨Or.inr rfl, Or.inr h2⟩
            | arr l => exact Or.inr ⟨Or.inr rfl, Or.inr h2⟩
            | obj f2 => exact Or.inr ⟨Or.inr rfl, Or.inr h2⟩
        | null => exact Or.inr ⟨Or.inl rfl, Or.inr h2⟩
        | bool v => exact Or.inr ⟨Or.inl rfl, Or.inr h2⟩
        | num q => exact Or.inr ⟨Or.inl rfl, Or.inr h2⟩
        | str s => exact Or.inr ⟨Or.inl rfl, Or.inr h2⟩
        | arr l => exact Or.inr ⟨Or.inl rfl, Or.inr h2⟩
    · rw [if_neg h2]
      repeat' first
        | exact Or.inl rfl
        | apply ite_pred

theorem serve_file_headersOK (fs : String → Option String) (fp : String) :
    jsonHeadersOK (serve_file fs fp) := by
  unfold serve_file
  rcases hf : fs fp with _ | c
  · exact fun j h => Body.noConfusion h
  · exact fun j h => Body.noConfusion h

theorem fallback_GET_headersOK (fs : String → Option String) (p : String) :
    jsonHeadersOK (fallback_GET fs p) := by
  unfold fallback_GET
  rcases hf : fs p with _ | c
  · exact fun j h => Body.noConfusion h
  · exact fun j h => Body.noConfusion h

theorem do_GET_headersOK (fs : String → Option String) (p : String) :
    jsonHeadersOK (do_GET fs p) := by
  unfold do_GET
  repeat' first
    | exact serve_file_headersOK fs _
    | exact fallback_GET_headersOK fs _
    | exact fun j h => rfl
    | exact fun j h => Body.noConfusion h
    | apply ite_pred

theorem do_POST_headersOK (p : String) (b : Option Json) :
    jsonHeadersOK (do_POST p b) := by
  unfold do_POST
  by_cases h1 : p = "/api/auth/login"
  · rw [if_pos h1]
    rcases b with _ | j
    · exact fun j h => rfl
    · cases j with
      | obj fields =>
        apply ite_pred
        · exact fun j h => rfl
        · exact fun j h => rfl
      | null => exact fun j h => rfl
      | bool v => exact fun j h => rfl
      | num q => exact fun j h => rfl
      | str s => exact fun j h => rfl
      | arr l => exact fun j h => rfl
  · rw [if_neg h1]
    by_cases h2 : p = "/api/portal/auth/login"
    · rw [if_pos h2]
      rcases b with _ | j
      · exact fun j h => rfl
      · cases j with
        | obj fields =>
          apply ite_pred
          · exact fun j h => rfl
          · cases hv : (List.lookup "username" fields).getD (Json.str "") with
            | str u =>
              show jsonHeadersOK
                (match List.lookup u valid_users with
                 | some user =>
                     if jsonIsStr ((List.lookup "password" fields).getD (Json.str ""))
                         user.password = true then
                       send_json (portalOkJson u user) 200
                     else send_json portalFailJson 401
                 | none => send_json portalFailJson 401)
              rcases hl : List.lookup u valid_users with _ | usr
              · exact fun j h => rfl
              · apply ite_pred
                · exact fun j h => rfl
                · exact fun j h => rfl
            | null => exact fun j h => rfl
            | bool v => exact fun j h => rfl
            | num q => exact fun j h => rfl
            | arr l => exact fun j h => rfl
            | obj f2 => exact fun j h => rfl
        | null => exact fun j h => rfl
        | bool v => exact fun j h => rfl
        | num q => exact fun j h => rfl
        | str s => exact fun j h => rfl
        | arr l => exact fun j h => rfl
    · rw [if_neg h2]
      repeat' first
        | exact fun j h => rfl
        | apply ite_pred

/-- Every response whose body is JSON was produced by `send_json`, hence
carries exactly its two headers. -/
theorem handle_json_headers (fs : String → Option String) (req : Request) :
    jsonHeadersOK (handle fs req) := by
  cases req with
  | mk m u b =>
    cases m with
    | GET => exact do_GET_headersOK fs (urlparse_path u)
    | POST => exact do_POST_headersOK (urlparse_path u) b
    | PUT => exact fun j h => rfl

/-- C1: a POST to `/api/auth/login` whose body parses to a JSON object (a
well-formed credential pair) answers 200 with `success=true`, the fixed token
`mock-jwt-token-12345` and a user object (body `adminOkJson`) exactly when the
`username` field is the string `admin` and the `password` field is the string
`admin123`; every other credential pair answers 401 with `success=false`
(body `authFailJson`). -/
theorem C1_admin_login (fields : List (String × Json)) :
    (List.lookup "username" fields = some (Json.str "admin") ∧
        List.lookup "password" fields = some (Json.str "admin123") →
      do_POST "/api/auth/login" (some (Json.obj fields)) = send_json adminOkJson 200)
    ∧ (¬ (List.lookup "username" fields = some (Json.str "admin") ∧
          List.lookup "password" fields = some (Json.str "admin123")) →
      do_POST "/api/auth/login" (some (Json.obj fields)) = send_json authFailJson 401) := by
  constructor
  · rintro ⟨h1, h2⟩
    rw [do_POST_auth_obj]
    exact if_pos ⟨(jsonEqStr_iff _ _).mpr h1, (jsonEqStr_iff _ _).mpr h2⟩
  · intro hn
    rw [do_POST_auth_obj]
    exact if_neg (fun hc => hn ⟨(jsonEqStr_iff _ _).mp hc.1, (jsonEqStr_iff _ _).mp hc.2⟩)

/-- C1 witness: both branches of `C1_admin_login` at concrete credential
objects (the admin pair, and an empty object). -/
theorem C1_admin_login_witness :
    (do_POST "/api/auth/login"
        (some (Json.obj [("username", Json.str "admin"), ("password", Json.str "admin123")])) =
      send_json adminOkJson 200)
    ∧ (do_POST "/api/auth/login" (some (Json.obj [])) = send_json authFailJson 401) :=
  ⟨(C1_admin_login _).1 ⟨rfl, rfl⟩,
   (C1_admin_login _).2 (fun hc => Option.noConfusion hc.1)⟩

/-- C2 counterexample: the response body of GET `/api/devices` is the JSON
object `devicesJson`, not a JSON array, refuting the claim that the body is a
JSON array of 5 device records. -/
theorem C2_devices_body_not_array :
    (handle fsEmpty ⟨Method.GET, "/api/devices", none⟩).body = Body.json devicesJson ∧
      Json.isArr devicesJson = false :=
  ⟨rfl, rfl⟩

/-- C2 amended: every GET request to the exact path `/api/devices` answers
200 with the JSON object whose `devices` field is the array of exactly the 5
literal device records and whose `total` field is 5, for every filesystem and
request body. -/
theorem C2_devices_five_records (fs : String → Option String) (b : Option Json) :
    handle fs ⟨Method.GET, "/api/devices", b⟩ =
      send_json (Json.obj [("devices", Json.arr deviceRecords), ("total", Json.num 5)]) 200 ∧
      deviceRecords.length = 5 :=
  ⟨rfl, rfl⟩

/-- C3 counterexample: two POST requests to the same path `/api/auth/login`,
differing only in request body, receive different response bodies, so the
response body is not a constant determined by the URL path alone. -/
theorem C3_same_path_different_bodies :
    (handle fsEmpty ⟨Method.POST, "/api/auth/login",
        some (Json.obj [("username", Json.str "admin"), ("password", Json.str "admin123")])⟩).body ≠
      (handle fsEmpty ⟨Method.POST, "/api/auth/login", some (Json.obj [])⟩).body :=
  fun h => absurd (congrArg successFlag h) (by decide)

/-- C3 amended: the response is determined by the parsed URL path together
with the parsed request body; GET responses ignore the query string and the
request body entirely, and POST responses ignore the body on every route
except the two login routes (where credentials, hence the body, matter). -/
theorem C3_response_determined :
    (∀ (fs : String → Option String) (u1 u2 : String) (b1 b2 : Option Json),
        urlparse_path u1 = urlparse_path u2 →
        handle fs ⟨Method.GET, u1, b1⟩ = handle fs ⟨Method.GET, u2, b2⟩)
    ∧ (∀ (p : String) (b1 b2 : Option Json),
        ¬ isLoginPath p → do_POST p b1 = do_POST p b2) := by
  constructor
  · intro fs u1 u2 b1 b2 h
    show do_GET fs (urlparse_path u1) = do_GET fs (urlparse_path u2)
    rw [h]
  · intro p b1 b2 hn
    have h1 : ¬ (p = "/api/auth/login") := fun h => hn (Or.inl h)
    have h2 : ¬ (p = "/api/portal/auth/login") := fun h => hn (Or.inr h)
    unfold do_POST
    rw [if_neg h1, if_neg h2, if_neg h1, if_neg h2]

/-- C3 witness: `C3_response_determined` applied to two GET requests that
differ in query string and body but share the parsed path. -/
theorem C3_response_determined_witness :
    handle fsEmpty ⟨Method.GET, "/dashboard?tab=1", none⟩ =
      handle fsEmpty ⟨Method.GET, "/dashboard?tab=2", some (Json.num 1)⟩ :=
  C3_response_determined.1 fsEmpty "/dashboard?tab=1" "/dashboard?tab=2" none
    (some (Json.num 1)) rfl

/-- C4: for every id string, GET `/api/devices/<id>/wifi` answers 200 with
the same fixed WiFi credential object `wifiJson`, independent of the id. -/
theorem C4_wifi_fixed (fs : String → Option String) (id : String) :
    do_GET fs ("/api/devices/" ++ id ++ "/wifi") = send_json wifiJson 200 := by
  have hew : pyendswith ("/api/devices/" ++ (id ++ "/wifi")) "/wifi" = true := by
    rw [← strAppend_assoc]
    exact ew_suffix _ _
  rw [strAppend_assoc, do_GET_api_devices, if_pos hew]

/-- C5 counterexample: a POST to `/api/auth/login` with a valid JSON object
body but wrong credentials answers 401 — an error status the dispatch table
produces beyond the claimed 404 and 400. -/
theorem C5_status_401_exists :
    (handle fsEmpty ⟨Method.POST, "/api/auth/login", some (Json.obj [])⟩).status = 401 ∧
      (handle fsEmpty ⟨Method.POST, "/api/auth/login", some (Json.obj [])⟩).status ≠ 404 ∧
      (handle fsEmpty ⟨Method.POST, "/api/auth/login", some (Json.obj [])⟩).status ≠ 400 ∧
      (handle fsEmpty ⟨Method.POST, "/api/auth/login", some (Json.obj [])⟩).status ≠ 200 :=
  ⟨rfl, by decide, by decide, by decide⟩

/-- C5 amended: the only statuses the server produces are 200, 400, 401 and
404, and the non-2xx statuses 400 and 401 arise only from POSTs to the two
login routes (404 only from GET file serving); every other handled request
succeeds with a canned 200 output. -/
theorem C5_status_taxonomy (fs : String → Option String) (req : Request) :
    ((handle fs req).status = 200 ∨ (handle fs req).status = 400 ∨
        (handle fs req).status = 401 ∨ (handle fs req).status = 404)
    ∧ ((handle fs req).status = 400 ∨ (handle fs req).status = 401 →
        req.method = Method.POST ∧ isLoginPath (urlparse_path req.url)) := by
  cases req with
  | mk m u b =>
    cases m with
    | GET =>
      have h := do_GET_status fs (urlparse_path u)
      have hh : handle fs ⟨Method.GET, u, b⟩ = do_GET fs (urlparse_path u) := rfl
      rw [hh]
      unfold statusOKGET at h
      constructor
      · rcases h with h | h
        · exact Or.inl h
        · exact Or.inr (Or.inr (Or.inr h))
      · intro hbad
        rcases h with h | h <;> rcases hbad with hb' | hb' <;> omega
    | POST =>
      have h := do_POST_status (urlparse_path u) b
      have hh : handle fs ⟨Method.POST, u, b⟩ = do_POST (urlparse_path u) b := rfl
      rw [hh]
      unfold statusOKPOST at h
      constructor
      · rcases h with h | ⟨h45, hl⟩
        · exact Or.inl h
        · rcases h45 with h4 | h4
          · exact Or.inr (Or.inl h4)
          · exact Or.inr (Or.inr (Or.inl h4))
      · intro hbad
        rcases h with h | ⟨h45, hl⟩
        · rcases hbad with hb' | hb' <;> omega
        · exact ⟨rfl, hl⟩
    | PUT =>
      have hh : handle fs ⟨Method.PUT, u, b⟩ = send_json putOkJson 200 := rfl
      rw [hh]
      constructor
      · exact Or.inl rfl
      · intro hbad
        rcases hbad with hb' | hb' <;> exact absurd hb' (by decide)

/-- C5 witness: `C5_status_taxonomy` applied to a failing login request,
whose 401 status pins down the method and path. -/
theorem C5_status_taxonomy_witness :
    Method.POST = Method.POST ∧ isLoginPath (urlparse_path "/api/auth/login") :=
  (C5_status_taxonomy fsEmpty ⟨Method.POST, "/api/auth/login", some (Json.obj [])⟩).2
    (Or.inr rfl)

/-- C6: a POST to either login route whose body is not valid JSON (so that
`json.loads` fails) answers 400 with `success=false`. -/
theorem C6_invalid_json_login (p : String) (h : isLoginPath p) :
    do_POST p none = send_json invalidRequestJson 400 ∧
      successFlag (do_POST p none).body = false := by
  rcases h with h | h <;> rw [h] <;> exact ⟨rfl, rfl⟩

/-- C6 witness: `C6_invalid_json_login` at the admin login route. -/
theorem C6_invalid_json_login_witness :
    do_POST "/api/auth/login" none = send_json invalidRequestJson 400 ∧
      successFlag (do_POST "/api/auth/login" none).body = false :=
  C6_invalid_json_login "/api/auth/login" (Or.inl rfl)

/-- C7: `send_json` unconditionally attaches `Access-Control-Allow-Origin: *`
together with `Content-Type: application/json`, for every payload and status;
consequently every response of the server whose body is JSON — any route,
method and status — carries both headers. -/
theorem C7_cors_headers :
    (∀ (d : Json) (s : Nat),
        ("Access-Control-Allow-Origin", "*") ∈ (send_json d s).headers ∧
          ("Content-Type", "application/json") ∈ (send_json d s).headers)
    ∧ (∀ (fs : String → Option String) (req : Request) (j : Json),
        (handle fs req).body = Body.json j →
          ("Access-Control-Allow-Origin", "*") ∈ (handle fs req).headers ∧
            ("Content-Type", "application/json") ∈ (handle fs req).headers) := by
  constructor
  · intro d s
    constructor
    · exact List.mem_cons_of_mem _ (List.mem_cons_self _ _)
    · exact List.mem_cons_self _ _
  · intro fs req j h
    rw [handle_json_headers fs req j h]
    constructor
    · exact List.mem_cons_of_mem _ (List.mem_cons_self _ _)
    · exact List.mem_cons_self _ _

/-- C7 witness: `C7_cors_headers` applied to a PUT request, whose body is the
JSON value `putOkJson`. -/
theorem C7_cors_headers_witness :
    ("Access-Control-Allow-Origin", "*") ∈
        (handle fsEmpty ⟨Method.PUT, "/x", none⟩).headers ∧
      ("Content-Type", "application/json") ∈
        (handle fsEmpty ⟨Method.PUT, "/x", none⟩).headers :=
  C7_cors_headers.2 fsEmpty ⟨Method.PUT, "/x", none⟩ putOkJson rfl

/-- C8: every PUT request, whatever its path and body, answers 200 with the
fixed body `putOkJson` (`success=true`, `message="Updated"`). -/
theorem C8_put_fixed (fs : String → Option String) (req : Request)
    (h : req.method = Method.PUT) :
    handle fs req = send_json putOkJson 200 := by
  cases req with
  | mk m u b =>
    cases m with
    | GET => exact Method.noConfusion h
    | POST => exact Method.noConfusion h
    | PUT => rfl

/-- C8 witness: `C8_put_fixed` at a concrete PUT request with a path and a
body. -/
theorem C8_put_fixed_witness :
    handle fsEmpty ⟨Method.PUT, "/api/devices/3", some (Json.num 7)⟩ =
      send_json putOkJson 200 :=
  C8_put_fixed fsEmpty ⟨Method.PUT, "/api/devices/3", some (Json.num 7)⟩ rfl

/-- C9: a GET to `/api/devices/<seg>` that matches none of the five earlier
sub-resource suffix routes answers 200 with the fixed device-detail object,
whose `id` field is the integer value of the final path segment when that
segment is all digits, and 1 otherwise. -/
theorem C9_device_detail (fs : String → Option String) (seg : String)
    (h1 : pyendswith ("/api/devices/" ++ seg) "/wifi" = false)
    (h2 : pyendswith ("/api/devices/" ++ seg) "/wan" = false)
    (h3 : pyendswith ("/api/devices/" ++ seg) "/parameters" = false)
    (h4 : pyendswith ("/api/devices/" ++ seg) "/pon" = false)
    (h5 : pyendswith ("/api/devices/" ++ seg) "/clients" = false) :
    do_GET fs ("/api/devices/" ++ seg) =
      send_json
        (deviceDetailJson
          (if isdigit (pylastSegment ("/api/devices/" ++ seg)) = true then
             pyint (pylastSegment ("/api/devices/" ++ seg))
           else 1)) 200 := by
  rw [do_GET_api_devices, if_neg (by simp [h1]), if_neg (by simp [h2]),
      if_neg (by simp [h3]), if_neg (by simp [h4]), if_neg (by simp [h5])]

/-- C9 witness: `C9_device_detail` at segment `42`, whose digits become the
id 42. -/
theorem C9_device_detail_witness :
    (pyendswith ("/api/devices/" ++ "42") "/wifi" = false) ∧
      (isdigit (pylastSegment ("/api/devices/" ++ "42")) = true) ∧
      do_GET fsEmpty ("/api/devices/" ++ "42") = send_json (deviceDetailJson 42) 200 := by
  refine ⟨by decide, by decide, ?_⟩
  rw [C9_device_detail fsEmpty "42" (by decide) (by decide) (by decide) (by decide) (by decide)]
  rfl

/-- C10 counterexample: a POST to `/api/portal/auth/login` with a valid JSON
object body whose `username` value is a JSON array (an unhashable value, so
the `in` test raises and the bare `except` fires) answers 400 — not the 401
the claim promises for every invalid username/password pair. -/
theorem C10_portal_400 :
    (do_POST "/api/portal/auth/login"
        (some (Json.obj [("username", Json.arr []),
          ("password", Json.str "password123")]))).status = 400 ∧
      (do_POST "/api/portal/auth/login"
        (some (Json.obj [("username", Json.arr []),
          ("password", Json.str "password123")]))).status ≠ 401 ∧
      (do_POST "/api/portal/auth/login"
        (some (Json.obj [("username", Json.arr []),
          ("password", Json.str "password123")]))).status ≠ 200 :=
  ⟨rfl, by decide, by decide⟩

/-- C10 amended: for a POST to `/api/portal/auth/login` whose body parses to
a JSON object and whose `username` value (defaulting to the empty string) is
hashable: the response is 200 with token `customer-<id>-mock-token` exactly
when the username is one of the strings `johndoe`, `CUST-0001` (id 1),
`ahmad`, `CUST-0002` (id 2) and the password value is the string
`password123`; every other username/password pair answers 401 with
`success=false`.  (Non-object bodies and unhashable username values answer
400 instead, per `C10_portal_400`.) -/
theorem C10_portal_login (fields : List (String × Json))
    (hu : pyUnhashable ((List.lookup "username" fields).getD (Json.str "")) = false) :
    ((List.lookup "username" fields).getD (Json.str "") = Json.str "johndoe" →
       (List.lookup "password" fields).getD (Json.str "") = Json.str "password123" →
       do_POST "/api/portal/auth/login" (some (Json.obj fields)) =
         send_json (portalOkJson "johndoe" ⟨1, "CUST-0001", "John Doe", "password123"⟩) 200)
    ∧ ((List.lookup "username" fields).getD (Json.str "") = Json.str "CUST-0001" →
       (List.lookup "password" fields).getD (Json.str "") = Json.str "password123" →
       do_POST "/api/portal/auth/login" (some (Json.obj fields)) =
         send_json (portalOkJson "CUST-0001" ⟨1, "CUST-0001", "John Doe", "password123"⟩) 200)
    ∧ ((List.lookup "username" fields).getD (Json.str "") = Json.str "ahmad" →
       (List.lookup "password" fields).getD (Json.str "") = Json.str "password123" →
       do_POST "/api/portal/auth/login" (some (Json.obj fields)) =
         send_json (portalOkJson "ahmad" ⟨2, "CUST-0002", "Ahmad Susanto", "password123"⟩) 200)
    ∧ ((List.lookup "username" fields).getD (Json.str "") = Json.str "CUST-0002" →
       (List.lookup "password" fields).getD (Json.str "") = Json.str "password123" →
       do_POST "/api/portal/auth/login" (some (Json.obj fields)) =
         send_json (portalOkJson "CUST-0002" ⟨2, "CUST-0002", "Ahmad Susanto", "password123"⟩) 200)
    ∧ (¬ (((List.lookup "username" fields).getD (Json.str "") = Json.str "johndoe" ∨
            (List.lookup "username" fields).getD (Json.str "") = Json.str "CUST-0001" ∨
            (List.lookup "username" fields).getD (Json.str "") = Json.str "ahmad" ∨
            (List.lookup "username" fields).getD (Json.str "") = Json.str "CUST-0002") ∧
           (List.lookup "password" fields).getD (Json.str "") = Json.str "password123") →
       do_POST "/api/portal/auth/login" (some (Json.obj fields)) =
         send_json portalFailJson 401) := by
  refine ⟨?_, ?_, ?_, ?_, ?_⟩
  · intro h1 h2
    rw [do_POST_portal_obj, if_neg (by simp [hu]), h1, h2]
    rfl
  · intro h1 h2
    rw [do_POST_portal_obj, if_neg (by simp [hu]), h1, h2]
    rfl
  · intro h1 h2
    rw [do_POST_portal_obj, if_neg (by simp [hu]), h1, h2]
    rfl
  · intro h1 h2
    rw [do_POST_portal_obj, if_neg (by simp [hu]), h1, h2]
    rfl
  · intro hn
    rw [do_POST_portal_obj, if_neg (by simp [hu])]
    cases hv : (List.lookup "username" fields).getD (Json.str "") with
    | str u =>
      show (match List.lookup u valid_users with
            | some user =>
                if jsonIsStr ((List.lookup "password" fields).getD (Json.str ""))
                    user.password = true then
                  send_json (portalOkJson u user) 200
                else send_json portalFailJson 401
            | none => send_json portalFailJson 401) = send_json portalFailJson 401
      rcases hl : List.lookup u valid_users with _ | usr
      · rfl
      · have hfour := valid_users_lookup u usr hl
        have hpwd :
            ¬ ((List.lookup "password" fields).getD (Json.str "") = Json.str "password123") := by
          intro hp
          apply hn
          constructor
          · rcases hfour.1 with h | h | h | h
            · exact Or.inl (by rw [hv, h])
            · exact Or.inr (Or.inl (by rw [hv, h]))
            · exact Or.inr (Or.inr (Or.inl (by rw [hv, h])))
            · exact Or.inr (Or.inr (Or.inr (by rw [hv, h])))
          · exact hp
        exact if_neg (fun hc => hpwd (by rw [← hfour.2]; exact (jsonIsStr_iff _ _).mp hc))
    | null => rfl
    | bool v => rfl
    | num q => rfl
    | arr l => rfl
    | obj f2 => rfl

/-- C10 witness: `C10_portal_login` at the `ahmad` credentials, yielding the
id-2 token. -/
theorem C10_portal_login_witness :
    do_POST "/api/portal/auth/login"
        (some (Json.obj [("username", Json.str "ahmad"),
          ("password", Json.str "password123")])) =
      send_json (portalOkJson "ahmad" ⟨2, "CUST-0002", "Ahmad Susanto", "password123"⟩) 200 :=
  ((C10_portal_login _ (by decide)).2.2.1) rfl rfl

end GOACS
